import Mathlib

/-!
Verification development for the submit-service repository (src/app.js and
src/download.js): a shallow embedding of the sample (`/fields`) endpoint's
classifier, samplers, and zip scanner, and of the download endpoint's
metadata resolver, zip staging, and CSV-to-GeoJSON conversion sink, together
with theorems settling the specification claims.

Records decoded from CSV or GeoJSON streams are modelled as ordered
association lists of field name to scalar value; scalar values are modelled
as strings (the sampling and conversion logic never inspects non-string
scalars beyond passing them through).
-/

/-- One decoded row/feature: an ordered mapping from field name to scalar
value, as produced by csv-parse with `columns: true` or by reading a GeoJSON
feature's `properties`. -/
abbrev Record := List (String × String)

/-- Embedding of JavaScript `_.keys(record)`: the field names of a record in
insertion order. -/
def keys (r : Record) : List String := r.map Prod.fst

/-- Embedding of lodash `_.endsWith(s, suffix)`, computed on character
lists so that it evaluates inside the kernel. -/
def endsWithL (s suffix : String) : Bool :=
  List.isPrefixOf suffix.toList.reverse s.toList.reverse

/-! ## Source classifier (src/app.js, `arcgisRegexp` and `determineType`)

The regular expression `/(Map|Feature)Server\/\d+\/?$/` is embedded as an
executable test on the reversed character list: strip at most one trailing
slash, then require a nonempty run of decimal digits, preceded immediately
by `Server/`, preceded immediately by `Map` or `Feature`; anything may come
before that (the pattern is unanchored at the start). -/

/-- The string `"Server/"` reversed, the literal the reversed-suffix scan expects after
the digit run. -/
def srvRev : List Char := "Server/".toList.reverse

/-- The string `"Map"` reversed. -/
def mapRev : List Char := "Map".toList.reverse

/-- The string `"Feature"` reversed. -/
def featRev : List Char := "Feature".toList.reverse

/-- Drop a single leading slash of a reversed locator, embedding the
optional trailing `\/?` of `arcgisRegexp`. -/
def stripSlash (r : List Char) : List Char :=
  if r.head? = some '/' then r.tail else r

/-- Test of `arcgisRegexp` against the reversed character list of the
locator. -/
def arcgisRevTest (r : List Char) : Bool :=
  let r1 := stripSlash r
  let ds := r1.takeWhile fun c => c.isDigit
  let r2 := r1.dropWhile fun c => c.isDigit
  !ds.isEmpty && srvRev.isPrefixOf r2 &&
    (mapRev.isPrefixOf (r2.drop 7) || featRev.isPrefixOf (r2.drop 7))

/-- Embedding of `arcgisRegexp.test(source)` from src/app.js line 16/32. -/
def arcgisTest (s : String) : Bool := arcgisRevTest s.toList.reverse

/-- The specification's reading of the ArcGIS rule: the locator decomposes as
an arbitrary prefix, then `Map` or `Feature`, then `Server/`, then a nonempty
run of decimal digits, then an optional single slash, ending the string. -/
def ArcgisMatch (s : String) : Prop :=
  ∃ (pre ds sl mf : List Char),
    (mf = "Map".toList ∨ mf = "Feature".toList) ∧
    ds ≠ [] ∧
    (∀ c ∈ ds, c.isDigit = true) ∧
    (sl = [] ∨ sl = ['/']) ∧
    s.toList = pre ++ mf ++ "Server/".toList ++ ds ++ sl

/-! ## The `/fields` (sample) endpoint model (src/app.js) -/

/-- The request query object of the sample endpoint. The caller supplies
`source` (and, because express merges all query parameters into one
namespace, possibly `protocol`, `type` or `compression` as well); the
middleware chain writes its own results into the same object. `none` models
an absent (`undefined`) parameter. -/
structure Query where
  source : Option String
  protocol : Option String
  type : Option String
  compression : Option String
  fields : Option (List String)
  results : Option (List Record)
deriving DecidableEq

/-- A request whose only query parameter is `source`. -/
def mkQuery (s : String) : Query :=
  { source := some s, protocol := none, type := none, compression := none,
    fields := none, results := none }

/-- Embedding of `determineType` (src/app.js lines 29-55). It writes
`protocol`, `type` and `compression` into the query object and leaves every
other key untouched; in particular a zip source leaves a caller-supplied
`type` in place, and a csv/geojson source leaves a caller-supplied
`compression` in place. -/
def determineTypeQ (q : Query) : Query :=
  match q.source with
  | none => q
  | some s =>
    if arcgisTest s then
      { q with protocol := some "ESRI", type := some "geojson" }
    else if endsWithL s ".geojson" then
      { q with protocol := some "http", type := some "geojson" }
    else if endsWithL s ".csv" then
      { q with protocol := some "http", type := some "csv" }
    else if endsWithL s ".zip" then
      { q with protocol := some "http", compression := some "zip" }
    else
      { q with protocol := some "unknown" }

/-- The JSON body sent by the `output` middleware (src/app.js lines
271-287): `type` carries the protocol, `conformType` carries
`conform.type`, and `fields`/`results` are absent (`none`) when the query
object never received them. -/
structure OkBody where
  type : Option String
  compression : Option String
  data : Option String
  fields : Option (List String)
  results : Option (List Record)
  conformType : Option String
deriving DecidableEq

/-- Responses a request can end in. `ok` is a 200 JSON body from the sample
endpoint, `okFile` a 200 attachment from the download endpoint, `err` an
error status with its message, and `unhandled` a thrown exception that no
handler catches (no response is produced). -/
inductive Response where
  | ok (body : OkBody)
  | okFile (filename : String)
  | err (status : Nat) (message : String)
  | unhandled (reason : String)
deriving DecidableEq

/-- The type-specific routers of src/app.js lines 294-316, in mounting
order, plus the trailing `output` middleware reached when every router
declines. -/
inductive Route where
  | arcgis
  | geojson
  | csv
  | zip
  | fallthrough
deriving DecidableEq

/-- Embedding of `typecheck(protocol, type, compression)` (src/app.js lines
59-66): a router handles the request only when all three query values equal
the router's values, an argument the router does not pass being
`undefined`. -/
def typecheckQ (q : Query) (protocol ty compression : Option String) : Bool :=
  q.protocol == protocol && q.type == ty && q.compression == compression

/-- Which router (if any) accepts the classified request, following the
mounting order `arcgisRouter, geojsonRouter, csvRouter, zipRouter, output`
of src/app.js lines 308-316. -/
def dispatchRoute (q : Query) : Route :=
  if typecheckQ q (some "ESRI") (some "geojson") none then Route.arcgis
  else if typecheckQ q (some "http") (some "geojson") none then Route.geojson
  else if typecheckQ q (some "http") (some "csv") none then Route.csv
  else if typecheckQ q (some "http") none (some "zip") then Route.zip
  else Route.fallthrough

/-- One step of the through2 object handler shared by `sampleCsv` and the
csv branch of `sampleZip` (src/app.js lines 168-178 and 211-222): while
fewer than 10 records are collected, record the incoming record's key list
as `fields` and append the record; afterwards the stream is destroyed and
the state no longer changes. -/
def sampleStep (acc : Option (List String) × List Record) (record : Record) :
    Option (List String) × List Record :=
  if acc.2.length < 10 then (some (keys record), acc.2 ++ [record]) else acc

/-- The csv sampling pipe: `req.query.results = []` followed by the
through2 fold over the decoded records, starting from whatever
`req.query.fields` already held. -/
def csvPipe (fields0 : Option (List String)) (records : List Record) :
    Option (List String) × List Record :=
  records.foldl sampleStep (fields0, [])

/-- One step of the oboe `features[*]` handler (src/app.js lines 106-109 and
238-241): every observed feature overwrites `fields` with its property keys
and is appended to `results`; there is no length guard in the handler
itself. -/
def oboeStep (acc : Option (List String) × List Record) (feature : Record) :
    Option (List String) × List Record :=
  (some (keys feature), acc.2 ++ [feature])

/-- The geojson sampling pipe: oboe aborts after the `features[9]` node, so
exactly the first 10 features (or all of them, if fewer) pass through the
`features[*]` handler. -/
def oboePipe (fields0 : Option (List String)) (features : List Record) :
    Option (List String) × List Record :=
  (features.take 10).foldl oboeStep (fields0, [])

/-- One `entry` event of `sampleZip` (src/app.js lines 201-261), threading
the query object and the list of entry names routed into a decoder. A
`.csv` entry resets `results`, sets `type` and runs the csv pipe; a
`.geojson` entry resets `results`, sets `type` and runs the oboe pipe; any
other entry is autodrained without decoding. -/
def zipEntryStep (acc : Query × List String) (e : String × List Record) :
    Query × List String :=
  if endsWithL e.1 ".csv" then
    let p := csvPipe acc.1.fields e.2
    ({ acc.1 with type := some "csv", fields := p.1, results := some p.2 },
      acc.2 ++ [e.1])
  else if endsWithL e.1 ".geojson" then
    let p := oboePipe acc.1.fields e.2
    ({ acc.1 with type := some "geojson", fields := p.1, results := some p.2 },
      acc.2 ++ [e.1])
  else acc

/-- Embedding of `sampleZip` (src/app.js lines 196-268) over the archive's
entries in stored order, each entry given with its decoded records. The
second component collects the names of the entries that were routed into a
decoder. -/
def sampleZipRun (q0 : Query) (entries : List (String × List Record)) :
    Query × List String :=
  entries.foldl zipEntryStep (q0, [])

/-- Embedding of the `output` middleware (src/app.js lines 271-287). -/
def outputMw (q : Query) : Response :=
  Response.ok
    { type := q.protocol, compression := q.compression, data := q.source,
      fields := q.fields, results := q.results, conformType := q.type }

/-- The upstream data a `/fields` request may consume, supplied abstractly:
the ArcGIS query response, the decoded record stream of a direct csv or
geojson source, and the entries of a zip source. -/
structure Upstream where
  arcgisFields : List String
  arcgisResults : List Record
  records : List Record
  entries : List (String × List Record)

/-- The `/fields` endpoint on its successful-transport paths:
`preconditionsCheck`, `determineType`, the router chain, and `output`
(src/app.js lines 289-316). The missing-source message is modelled without
the quotation marks around the parameter name. -/
def runFields (q0 : Query) (u : Upstream) : Response :=
  match q0.source with
  | none => Response.err 400 "source parameter is required"
  | some _ =>
    let q := determineTypeQ q0
    if q.protocol = some "unknown" then Response.err 400 "Unsupported type"
    else
      match dispatchRoute q with
      | Route.arcgis =>
        outputMw { q with fields := some u.arcgisFields,
                          results := some u.arcgisResults }
      | Route.geojson =>
        let p := oboePipe q.fields u.records
        outputMw { q with fields := p.1, results := some p.2 }
      | Route.csv =>
        let p := csvPipe q.fields u.records
        outputMw { q with fields := p.1, results := some p.2 }
      | Route.zip =>
        let z := sampleZipRun q u.entries
        if z.1.type = none then
          Response.err 400 "Could not determine type from zip file"
        else outputMw z.1
      | Route.fallthrough => outputMw q

/-! ## Sampler failure models (src/app.js lines 69-96, 100-130, 134-192)

Each sampler is modelled over an abstract outcome of its upstream request:
a transport failure before the first byte, a non-200 HTTP response, a
malformed payload mid-stream, or a successful decode. -/

/-- What the upstream request of `sampleCsv` can produce. -/
inductive CsvOutcome where
  | transportErr (code : String)
  | httpErr (status : Nat) (body : String)
  | decodeErrMidStream (validRecords : List Record) (parseError : String)
  | okRecords (records : List Record)

/-- Embedding of `sampleCsv` (src/app.js lines 134-192) followed by
`output`. The `request` error handler covers transport failures, the
non-200 branch collects the body text, and a successful stream runs the csv
pipe. The csv parse stream has no error listener, so a malformed payload
mid-stream raises an uncaught error event and no response is produced. -/
def sampleCsvModel (q : Query) (o : CsvOutcome) : Response :=
  let source := q.source.getD ""
  match o with
  | CsvOutcome.transportErr code =>
    Response.err 400 ("Error retrieving file " ++ source ++ ": " ++ code)
  | CsvOutcome.httpErr status body =>
    Response.err 400
      ("Error retrieving file " ++ source ++ ": " ++ body ++
        " (" ++ toString status ++ ")")
  | CsvOutcome.decodeErrMidStream _ e => Response.unhandled e
  | CsvOutcome.okRecords rs =>
    let p := csvPipe q.fields rs
    outputMw { q with fields := p.1, results := some p.2 }

/-- What the oboe stream of `sampleGeojson` can produce. Both a transport
failure and a mid-stream JSON decode failure arrive at the single `.fail`
handler, whose error object carries an optional response body and an
optional status code (absent fields print as `undefined`). -/
inductive GeojsonOutcome where
  | transportErr
  | httpErr (status : Nat) (body : String)
  | decodeErrMidStream (validFeatures : List Record) (body : Option String)
      (status : Option Nat)
  | okFeatures (features : List Record)

/-- Prints an optional string the way a JavaScript template literal prints
a possibly-undefined value. -/
def showOptStr : Option String → String
  | none => "undefined"
  | some s => s

/-- Prints an optional number the way a JavaScript template literal prints
a possibly-undefined value. -/
def showOptNat : Option Nat → String
  | none => "undefined"
  | some n => toString n

/-- The one message template of the `.fail` handler of `sampleGeojson`
(src/app.js lines 117-123), over the optional body and status code of the
failure object. -/
def oboeFailMsg (source : String) (body : Option String) (status : Option Nat) : String :=
  "Error retrieving file " ++ source ++ ": " ++ showOptStr body ++
    " (" ++ showOptNat status ++ ")"

/-- Embedding of `sampleGeojson` (src/app.js lines 100-130) followed by
`output`: every failure kind is routed through the one `.fail` handler and
its single message template. -/
def sampleGeojsonModel (q : Query) (o : GeojsonOutcome) : Response :=
  let source := q.source.getD ""
  match o with
  | GeojsonOutcome.transportErr =>
    Response.err 400 (oboeFailMsg source none none)
  | GeojsonOutcome.httpErr status body =>
    Response.err 400 (oboeFailMsg source (some body) (some status))
  | GeojsonOutcome.decodeErrMidStream _ body status =>
    Response.err 400 (oboeFailMsg source body status)
  | GeojsonOutcome.okFeatures fs =>
    let p := oboePipe q.fields fs
    outputMw { q with fields := p.1, results := some p.2 }

/-- What the ArcGIS query of `sampleArcgis` can produce. -/
inductive ArcgisOutcome where
  | transportErr (code : String)
  | httpErr (status : Nat) (body : String)
  | okResults (fieldNames : List String) (attrs : List Record)

/-- Embedding of `sampleArcgis` (src/app.js lines 69-96) followed by
`output`. On a transport failure the callback receives an undefined
`response` yet immediately reads `response.statusCode`, so a TypeError is
thrown and no response is produced. -/
def sampleArcgisModel (q : Query) (o : ArcgisOutcome) : Response :=
  let source := q.source.getD ""
  match o with
  | ArcgisOutcome.transportErr _ =>
    Response.unhandled "TypeError: reading statusCode of undefined response"
  | ArcgisOutcome.httpErr status body =>
    Response.err 400
      ("Error connecting to Arcgis server " ++ source ++ ": " ++ body ++
        " (" ++ toString status ++ ")")
  | ArcgisOutcome.okResults f a =>
    outputMw { q with fields := some f, results := some a }

/-! ## The Point-GeoJSON conversion sink (src/download.js lines 95-154) -/

/-- A JavaScript number as the conversion sink uses it: either NaN (the
result of `parseFloat` on a non-numeric string) or a finite decimal value,
modelled exactly as a rational. -/
inductive JsNum where
  | nan
  | num (q : ℚ)
deriving DecidableEq

/-- Decimal digits to a natural number, most significant first. -/
def natOfDigits (ds : List Char) : ℕ :=
  ds.foldl (fun a c => a * 10 + (c.toNat - '0'.toNat)) 0

/-- Model of the JavaScript `parseFloat` builtin restricted to the inputs
the conversion sink feeds it: an optional sign, decimal digits, an optional
fractional part; any trailing characters are ignored and an input with no
numeric prefix yields NaN. Exponents, leading whitespace and Infinity are
outside the model. -/
def parseFloatM (s : String) : JsNum :=
  let l := s.toList
  let signSplit : Bool × List Char :=
    match l with
    | '-' :: t => (true, t)
    | '+' :: t => (false, t)
    | _ => (false, l)
  let intDigits := signSplit.2.takeWhile fun c => c.isDigit
  let rest := signSplit.2.dropWhile fun c => c.isDigit
  let fracDigits :=
    match rest with
    | '.' :: t => t.takeWhile fun c => c.isDigit
    | _ => []
  if intDigits.isEmpty && fracDigits.isEmpty then JsNum.nan
  else
    let scale : ℕ := 10 ^ fracDigits.length
    let numerator : ℤ := natOfDigits intDigits * scale + natOfDigits fracDigits
    JsNum.num (mkRat (if signSplit.1 then -numerator else numerator) scale)

/-- JavaScript property read `record.K` on a decoded csv record: the value
of the first field named `K`, or undefined. -/
def getField (r : Record) (k : String) : Option String :=
  match r with
  | [] => none
  | (k', v) :: t => if k' = k then some v else getField t k

/-- JavaScript `parseFloat` applied to a possibly-undefined property
(`parseFloat(undefined)` is NaN). -/
def parseCoord (v : Option String) : JsNum :=
  match v with
  | none => JsNum.nan
  | some s => parseFloatM s

/-- One emitted GeoJSON Point feature. -/
structure PointFeature where
  geomType : String
  lon : JsNum
  lat : JsNum
  properties : Record
deriving DecidableEq

/-- Embedding of the record-to-point through2 stage of `respondWithGeojson`
(src/download.js lines 119-134): coordinates are `parseFloat` of the `LON`
and `LAT` fields, and the properties are the record with the `LON` and
`LAT` fields omitted (lodash `_.omit`, which keeps the remaining fields in
order). -/
def toPoint (record : Record) : PointFeature :=
  { geomType := "Point",
    lon := parseCoord (getField record "LON"),
    lat := parseCoord (getField record "LAT"),
    properties := record.filter fun kv => !(kv.1 == "LON") && !(kv.1 == "LAT") }

/-- The conversion sink over a decoded record stream: every record is
converted and emitted, one point per record, in order. -/
def convertRecords (records : List Record) : List PointFeature :=
  records.map toPoint

/-- Split a character list at a separator (no quoting). -/
def splitOnChar (sep : Char) : List Char → List (List Char)
  | [] => [[]]
  | c :: t =>
    let r := splitOnChar sep t
    if c = sep then [] :: r
    else
      match r with
      | h :: t' => (c :: h) :: t'
      | [] => [[c]]

/-- Model of csv-parse with `skip_empty_lines: true, columns: true` on
unquoted input: the first nonempty line names the columns and every further
nonempty line becomes a record keyed by them. Quoted fields and escapes are
outside the model (the conversion claims only exercise unquoted input). -/
def csvDecodeSimple (input : String) : List Record :=
  let lines := (splitOnChar '\n' input.toList).filter fun l => !l.isEmpty
  match lines with
  | [] => []
  | header :: rows =>
    let hs := (splitOnChar ',' header).map List.asString
    rows.map fun row => hs.zip ((splitOnChar ',' row).map List.asString)

/-- The conversion sink applied to raw csv input: decode, then convert each
record to a point feature. -/
def convertCsvInput (input : String) : List PointFeature :=
  convertRecords (csvDecodeSimple input)

/-! ## The download endpoint model (src/download.js) -/

/-- One record of the tab-separated OpenAddresses metadata feed, restricted
to the two fields the resolver reads. -/
structure MetaRecord where
  source : String
  processed : String
deriving DecidableEq

/-- Embedding of the metadata scan of `getMetaData` (src/download.js lines
212-238): records arrive in feed order; the first record whose `source`
field equals the requested key stores its `processed` field and destroys
the stream, so no later record is consumed. The second component counts the
records consumed from the feed. -/
def scanMeta (key : String) : List MetaRecord → Option String × Nat
  | [] => (none, 0)
  | r :: rest =>
    if r.source = key then (some r.processed, 1)
    else
      let p := scanMeta key rest
      (p.1, p.2 + 1)

/-- Embedding of the zip entry loop of `getData` (src/download.js lines
290-310): entries are enumerated in order; an entry ending in `.csv` is
opened only while `csvFileFound` is still unset, and every other entry is
skipped. Returns the name of the entry routed to the output handler, if
any. -/
def getDataStep (csvFileFound : Option String) (name : String) : Option String :=
  if endsWithL name ".csv" && csvFileFound.isNone then some name
  else csvFileFound

/-- The zip entry loop of `getData` as a fold of `getDataStep` over the
entry names in stored order, starting with `csvFileFound` unset. -/
def getDataScan (entryNames : List String) : Option String :=
  entryNames.foldl getDataStep none

/-- Outcome of one upstream HTTP fetch: a transport failure, an HTTP error
response (with whether its content type is text/plain, and its body), or a
successful payload. -/
inductive Fetch (α : Type) where
  | transportErr (code : String)
  | httpErr (status : Nat) (plainText : Bool) (body : String)
  | ok (payload : α)

/-- Everything a `/download` request interacts with: the
`OPENADDRESSES_METADATA_FILE` environment variable, the caller's `format`
query parameter, the metadata feed fetch, and the zip fetch keyed by its
URL (the staged zip is abstracted to its entry name list). -/
structure DownloadEnv where
  metadataUrl : Option String
  format : Option String
  metaFeed : Fetch (List MetaRecord)
  zipFile : String → Fetch (List String)

/-- Per-request state threaded through the download middleware chain:
the response (if one was produced), whether headers were sent, whether the
chain halted without calling `next`, how many temporary files were created
and how many still exist, the resolved archive URL, and the output
format. -/
structure DState where
  response : Option Response
  headersSent : Bool
  halted : Bool
  tempCreated : Nat
  tempLive : Nat
  datafile : Option String
  format : String
deriving DecidableEq

/-- State at the start of a request. -/
def initState : DState :=
  { response := none, headersSent := false, halted := false,
    tempCreated := 0, tempLive := 0, datafile := none, format := "csv" }

/-- Send a response and stop the middleware chain (the handler does not
call `next`). -/
def haltWith (st : DState) (r : Response) : DState :=
  { st with response := some r, headersSent := true, halted := true }

/-- An uncaught exception: the chain stops and no headers are sent. -/
def crashWith (st : DState) (reason : String) : DState :=
  { st with response := some (Response.unhandled reason), halted := true }

/-- Embedding of `preconditionsCheck` (src/download.js lines 156-185):
default the format to csv, require the metadata feed location, reject
unsupported formats. -/
def preconditionsCheckD (env : DownloadEnv) (st : DState) : DState :=
  if st.halted then st
  else
    let fmt := env.format.getD "csv"
    match env.metadataUrl with
    | none =>
      haltWith st (Response.err 500
        "OPENADDRESSES_METADATA_FILE not defined in process environment")
    | some _ =>
      if fmt = "csv" ∨ fmt = "geojson" then { st with format := fmt }
      else haltWith st (Response.err 400 ("Unsupported output format: " ++ fmt))

/-- Embedding of `getMetaData` (src/download.js lines 188-244): fetch the
metadata feed, surface transport and HTTP failures (a non-plain-text error
response reaches `handleNonPlainTextNonCatastrophicError` through a call
that passes the response object in the status-code position, so that
handler dereferences an undefined response and throws), and otherwise
resolve the dataset key through the streamed scan. -/
def getMetaDataD (env : DownloadEnv) (key : String) (st : DState) : DState :=
  if st.halted then st
  else
    let u := env.metadataUrl.getD ""
    match env.metaFeed with
    | Fetch.transportErr code =>
      haltWith st (Response.err 500
        ("Error retrieving file " ++ u ++ ": " ++ code))
    | Fetch.httpErr status true body =>
      haltWith st (Response.err 500
        ("Error retrieving file " ++ u ++ ": " ++ body ++
          " (" ++ toString status ++ ")"))
    | Fetch.httpErr _ false _ =>
      crashWith st "status called on undefined response object"
    | Fetch.ok records => { st with datafile := (scanMeta key records).1 }

/-- Embedding of `getData` (src/download.js lines 247-338): a 400 when the
key was not resolved; otherwise fetch the archive, stage it in a temporary
file, and stream the first `.csv` entry through the output handler (200) or
report a 500 when the archive holds none. Both archive outcomes send a
response and then call `next`. -/
def getDataD (env : DownloadEnv) (key : String) (st : DState) : DState :=
  if st.halted then st
  else
    match st.datafile with
    | none =>
      haltWith st (Response.err 400
        ("Unable to find " ++ key ++ " in " ++ env.metadataUrl.getD ""))
    | some url =>
      match env.zipFile url with
      | Fetch.transportErr code =>
        haltWith st (Response.err 500
          ("Error retrieving file " ++ url ++ ": " ++ code))
      | Fetch.httpErr status _ body =>
        haltWith st (Response.err 500
          ("Error retrieving file " ++ url ++ ": " ++ body ++
            " (" ++ toString status ++ ")"))
      | Fetch.ok entryNames =>
        let st1 := { st with tempCreated := st.tempCreated + 1,
                             tempLive := st.tempLive + 1 }
        match getDataScan entryNames with
        | some _ =>
          { st1 with
            response := some (Response.okFile
              (if st1.format = "csv" then "data.csv" else "data.geojson")),
            headersSent := true }
        | none =>
          { st1 with
            response := some (Response.err 500
              (url ++ " does not contain .csv file")),
            headersSent := true }

/-- Embedding of `cleanupTemp` (src/download.js lines 342-348): reached
only when the previous middleware called `next`, and cleaning up only when
no headers were sent yet. -/
def cleanupTempD (st : DState) : DState :=
  if st.halted then st
  else if !st.headersSent then { st with tempLive := 0 }
  else st

/-- The `/download` middleware chain (src/download.js lines 350-357). -/
def downloadRequest (env : DownloadEnv) (key : String) : DState :=
  cleanupTempD (getDataD env key (getMetaDataD env key
    (preconditionsCheckD env initState)))

/-! ## Response projections and concrete inputs used by the theorems -/

/-- Whether a response is a 200 JSON body from the sample endpoint. -/
def Response.isOk200 : Response → Bool
  | Response.ok _ => true
  | _ => false

/-- The length of the `source_data.results` array of a 200 sample response,
when both the response and the array are present. -/
def Response.resultsLength : Response → Option Nat
  | Response.ok b => b.results.map List.length
  | _ => none

/-- The specification's first-match example archive: a `readme.txt`, then a
`data.csv` holding one record, then an `extra.geojson` holding one
feature. -/
def firstMatchEntries : List (String × List Record) :=
  [("readme.txt", []),
   ("data.csv", [[("a", "1")]]),
   ("extra.geojson", [[("b", "2")]])]

/-- A three-record stream, fewer than the sample cap. -/
def threeRecords : List Record :=
  [[("name", "a"), ("num", "1")],
   [("name", "b"), ("num", "2")],
   [("name", "c"), ("num", "3")]]

/-- An upstream whose direct record stream is `threeRecords`. -/
def demoUpstream : Upstream :=
  { arcgisFields := [], arcgisResults := [], records := threeRecords, entries := [] }

/-- Two records with different field sets, so that the last-record field
list differs from the union of field sets. -/
def twoRecords : List Record := [[("a", "1")], [("b", "2")]]

/-- A record whose `LON` and `LAT` fields both fail to parse as numbers. -/
def badRecord : Record := [("LON", "abc"), ("LAT", "xyz"), ("NAME", "x")]

/-- A classifiable csv source together with a caller-supplied
`compression=zip` query parameter. -/
def polluted1 : Query :=
  { source := some "http://upstream.example/data.csv", protocol := none,
    type := none, compression := some "zip", fields := none, results := none }

/-- A classifiable zip source together with a caller-supplied `type=csv`
query parameter. -/
def polluted2 : Query :=
  { source := some "http://upstream.example/archive.zip", protocol := none,
    type := some "csv", compression := none, fields := none, results := none }

/-- A download environment whose metadata feed holds no record for the
requested dataset key. -/
def notFoundEnv : DownloadEnv :=
  { metadataUrl := some "http://metadata.example/feed", format := none,
    metaFeed := Fetch.ok [{ source := "other", processed := "p0" }],
    zipFile := fun _ => Fetch.ok [] }

/-- A download environment on the fully successful path: the key resolves,
the zip fetch succeeds, and the archive holds a csv entry. -/
def happyEnv : DownloadEnv :=
  { metadataUrl := some "http://metadata.example/feed", format := none,
    metaFeed := Fetch.ok [{ source := "dataset1",
                            processed := "http://results.example/run1.zip" }],
    zipFile := fun _ => Fetch.ok ["readme.txt", "data.csv"] }

/-- The invariant threaded through the download middleware chain: the
temporary files still on disk match the ones created, and a request that
has neither halted nor sent headers has created no temporary file yet. -/
def DInv (st : DState) : Prop :=
  st.tempLive = st.tempCreated ∧
  (st.halted = false → st.headersSent = false → st.tempCreated = 0)

lemma takeWhile_all_append (p : Char → Bool) :
    ∀ (l m : List Char), (∀ c ∈ l, p c = true) →
      (∀ x, m.head? = some x → p x = false) →
      (l ++ m).takeWhile p = l ∧ (l ++ m).dropWhile p = m := by
  intro l
  induction l with
  | nil =>
    intro m _ hm
    cases m with
    | nil => simp
    | cons x t =>
      have hx : p x = false := hm x rfl
      simp [List.takeWhile, List.dropWhile, hx]
  | cons a l ih =>
    intro m hl hm
    have ha : p a = true := hl a (List.mem_cons_self a l)
    have ih' := ih m (fun c hc => hl c (List.mem_cons_of_mem a hc)) hm
    simp [List.takeWhile, List.dropWhile, ha, ih'.1, ih'.2]

lemma mem_takeWhile_sat (p : Char → Bool) :
    ∀ (l : List Char) (a : Char), a ∈ l.takeWhile p → p a = true := by
  intro l
  induction l with
  | nil => intro a h; simp [List.takeWhile] at h
  | cons b t ih =>
    intro a h
    cases hb : p b with
    | false => simp [List.takeWhile, hb] at h
    | true =>
      simp [List.takeWhile, hb] at h
      rcases h with h | h
      · exact h ▸ hb
      · exact ih a h

lemma isPrefixOf_true_iff :
    ∀ (l₁ l₂ : List Char), l₁.isPrefixOf l₂ = true ↔ ∃ t, l₁ ++ t = l₂ := by
  intro l₁
  induction l₁ with
  | nil => intro l₂; simp [List.isPrefixOf]
  | cons a t₁ ih =>
    intro l₂
    cases l₂ with
    | nil =>
      simp [List.isPrefixOf]
    | cons b t₂ =>
      simp only [List.isPrefixOf, Bool.and_eq_true, beq_iff_eq, ih t₂]
      constructor
      · rintro ⟨rfl, t, rfl⟩
        exact ⟨t, rfl⟩
      · rintro ⟨t, ht⟩
        injection ht with h1 h2
        exact ⟨h1, t, h2⟩

lemma digit_ne_slash {c : Char} (h : c.isDigit = true) : c ≠ '/' := by
  intro hc
  subst hc
  exact absurd h (by decide)

/-- The executable embedding of `arcgisRegexp.test` agrees with the
specification's decomposition of the pattern. -/
lemma arcgisTest_iff (s : String) : arcgisTest s = true ↔ ArcgisMatch s := by
  constructor
  · intro h
    unfold arcgisTest arcgisRevTest at h
    simp only [Bool.and_eq_true, Bool.or_eq_true] at h
    obtain ⟨⟨hne, hsrv⟩, hmf⟩ := h
    set r : List Char := s.toList.reverse with hr
    set r1 : List Char := stripSlash r with hr1
    have hsplit : r1.takeWhile (fun c => c.isDigit) ++
        r1.dropWhile (fun c => c.isDigit) = r1 :=
      List.takeWhile_append_dropWhile _ _
    set ds : List Char := r1.takeWhile (fun c => c.isDigit) with hds
    set r2 : List Char := r1.dropWhile (fun c => c.isDigit) with hr2
    have hdsne : ds ≠ [] := by
      cases hd : ds
      · rw [hd] at hne; simp [List.isEmpty] at hne
      · simp [hd]
    have hdig : ∀ c ∈ ds, c.isDigit = true := fun c hc =>
      mem_takeWhile_sat _ r1 c hc
    obtain ⟨u, hu⟩ := (isPrefixOf_true_iff _ _).mp hsrv
    have hdrop : r2.drop 7 = u := by
      rw [← hu]
      have : srvRev.length = 7 := by decide
      rw [← this, List.drop_left]
    rw [hdrop] at hmf
    -- r1 = ds ++ srvRev ++ u, and u = mfR ++ v for one of the two names
    have hr1eq : r1 = ds ++ srvRev ++ u := by
      rw [← hsplit, ← hu]; simp
    have hmain : ∃ (mfR v : List Char),
        (mfR = mapRev ∨ mfR = featRev) ∧ u = mfR ++ v := by
      rcases hmf with hm | hm
      · obtain ⟨v, hv⟩ := (isPrefixOf_true_iff _ _).mp hm
        exact ⟨mapRev, v, Or.inl rfl, hv.symm⟩
      · obtain ⟨v, hv⟩ := (isPrefixOf_true_iff _ _).mp hm
        exact ⟨featRev, v, Or.inr rfl, hv.symm⟩
    obtain ⟨mfR, v, hmfR, huv⟩ := hmain
    have hstoList : s.toList = r.reverse := by
      rw [hr, List.reverse_reverse]
    have hmfrev : mfR.reverse = "Map".toList ∨ mfR.reverse = "Feature".toList := by
      rcases hmfR with rfl | rfl
      · left; decide
      · right; decide
    have hsrvrev : srvRev.reverse = "Server/".toList := by decide
    -- case on whether a trailing slash was stripped
    by_cases hsl : r.head? = some '/'
    · have hr1tail : r1 = r.tail := by rw [hr1]; unfold stripSlash; rw [if_pos hsl]
      have hrcons : r = '/' :: r1 := by
        cases hrc : r with
        | nil => rw [hrc] at hsl; simp at hsl
        | cons c t =>
          rw [hrc] at hsl
          simp at hsl
          rw [hr1tail, hrc]
          simp [hsl]
      refine ⟨v.reverse, ds.reverse, ['/'], mfR.reverse, hmfrev, ?_, ?_, Or.inr rfl, ?_⟩
      · simpa [List.reverse_eq_nil_iff] using hdsne
      · intro c hc
        exact hdig c (List.mem_reverse.mp hc)
      · rw [hstoList, hrcons, hr1eq, huv]
        simp [List.reverse_append, hsrvrev, List.append_assoc]
    · have hr1r : r1 = r := by rw [hr1]; unfold stripSlash; rw [if_neg hsl]
      refine ⟨v.reverse, ds.reverse, [], mfR.reverse, hmfrev, ?_, ?_, Or.inl rfl, ?_⟩
      · simpa [List.reverse_eq_nil_iff] using hdsne
      · intro c hc
        exact hdig c (List.mem_reverse.mp hc)
      · rw [hstoList, ← hr1r, hr1eq, huv]
        simp [List.reverse_append, hsrvrev, List.append_assoc]
  · rintro ⟨pre, ds, sl, mf, hmf, hne, hdig, hsl, heq⟩
    unfold arcgisTest arcgisRevTest
    have hdigrev : ∀ c ∈ ds.reverse, (fun c : Char => c.isDigit) c = true := by
      intro c hc
      exact hdig c (List.mem_reverse.mp hc)
    have hmfrev : mf.reverse = mapRev ∨ mf.reverse = featRev := by
      rcases hmf with rfl | rfl
      · left; decide
      · right; decide
    have hsrvrev : "Server/".toList.reverse = srvRev := rfl
    -- the reversed locator after stripping the optional slash
    have hstrip : stripSlash s.toList.reverse =
        ds.reverse ++ (srvRev ++ (mf.reverse ++ pre.reverse)) := by
      have hrev : s.toList.reverse =
          sl.reverse ++ (ds.reverse ++ (srvRev ++ (mf.reverse ++ pre.reverse))) := by
        rw [heq]
        simp [srvRev, List.reverse_append, List.append_assoc]
      rcases hsl with rfl | rfl
      · rw [hrev]
        simp only [List.reverse_nil, List.nil_append]
        unfold stripSlash
        cases hd : ds.reverse with
        | nil =>
          exact absurd (List.reverse_eq_nil_iff.mp hd) hne
        | cons d t =>
          have hdd : d.isDigit = true := hdigrev d (hd ▸ List.mem_cons_self d t)
          rw [if_neg]
          simp only [hd, List.cons_append, List.head?]
          intro hcon
          exact digit_ne_slash hdd (by injection hcon)
      · rw [hrev]
        unfold stripSlash
        simp
    rw [hstrip]
    have hhead : ∀ x : Char,
        (srvRev ++ (mf.reverse ++ pre.reverse)).head? = some x →
          (fun c : Char => c.isDigit) x = false := by
      intro x hx
      have : x = '/' := by
        have : srvRev = '/' :: ['r', 'e', 'v', 'r', 'e', 'S'] := by decide
        rw [this] at hx
        simpa using hx.symm
      rw [this]
      decide
    obtain ⟨htake, hdrop⟩ :=
      takeWhile_all_append (fun c => c.isDigit) ds.reverse
        (srvRev ++ (mf.reverse ++ pre.reverse)) hdigrev hhead
    simp only [htake, hdrop, Bool.and_eq_true, Bool.or_eq_true]
    refine ⟨⟨?_, ?_⟩, ?_⟩
    · cases hd : ds.reverse with
      | nil => exact absurd (List.reverse_eq_nil_iff.mp hd) hne
      | cons d t => simp [List.isEmpty]
    · exact (isPrefixOf_true_iff _ _).mpr ⟨mf.reverse ++ pre.reverse, rfl⟩
    · have h7 : srvRev.length = 7 := by decide
      rw [← h7, List.drop_left]
      rcases hmfrev with hm | hm
      · exact Or.inl ((isPrefixOf_true_iff _ _).mpr ⟨pre.reverse, by rw [← hm]⟩)
      · exact Or.inr ((isPrefixOf_true_iff _ _).mpr ⟨pre.reverse, by rw [← hm]⟩)

/-! ## Sampler fold lemmas -/

lemma csvFold_length :
    ∀ (l : List Record) (f : Option (List String)) (acc : List Record),
      acc.length ≤ 10 →
      (l.foldl sampleStep (f, acc)).2.length = min 10 (acc.length + l.length) := by
  intro l
  induction l with
  | nil =>
    intro f acc h
    simp [List.foldl]
    omega
  | cons r l ih =>
    intro f acc h
    rw [List.foldl_cons]
    by_cases h10 : acc.length < 10
    · have : sampleStep (f, acc) r = (some (keys r), acc ++ [r]) := by
        simp [sampleStep, h10]
      rw [this, ih _ _ (by simp; omega)]
      simp
      omega
    · have : sampleStep (f, acc) r = (f, acc) := by
        simp [sampleStep, h10]
      rw [this, ih _ _ h]
      simp
      omega

lemma csvFold_fields :
    ∀ (l : List Record) (f : Option (List String)) (acc : List Record)
      (f0 : Option (List String)),
      f = (acc.getLast?).elim f0 (fun r => some (keys r)) →
      (l.foldl sampleStep (f, acc)).1 =
        ((l.foldl sampleStep (f, acc)).2.getLast?).elim f0 (fun r => some (keys r)) := by
  intro l
  induction l with
  | nil =>
    intro f acc f0 h
    simpa using h
  | cons r l ih =>
    intro f acc f0 h
    rw [List.foldl_cons]
    by_cases h10 : acc.length < 10
    · have hs : sampleStep (f, acc) r = (some (keys r), acc ++ [r]) := by
        simp [sampleStep, h10]
      rw [hs]
      exact ih _ _ f0 (by simp)
    · have hs : sampleStep (f, acc) r = (f, acc) := by
        simp [sampleStep, h10]
      rw [hs]
      exact ih _ _ f0 h

lemma oboeFold_results :
    ∀ (l : List Record) (f : Option (List String)) (acc : List Record),
      (l.foldl oboeStep (f, acc)).2 = acc ++ l := by
  intro l
  induction l with
  | nil => intro f acc; simp
  | cons r l ih =>
    intro f acc
    rw [List.foldl_cons]
    show (l.foldl oboeStep (some (keys r), acc ++ [r])).2 = acc ++ r :: l
    rw [ih]
    simp

lemma getLast?_cons_isSome (b : Record) (t : List Record) :
    ∃ x, (b :: t).getLast? = some x := by
  induction t generalizing b with
  | nil => exact ⟨b, rfl⟩
  | cons c t ih =>
    obtain ⟨x, hx⟩ := ih c
    exact ⟨x, by rw [List.getLast?_cons_cons, hx]⟩

lemma oboeFold_fields :
    ∀ (l : List Record) (f : Option (List String)) (acc : List Record),
      (l.foldl oboeStep (f, acc)).1 =
        (l.getLast?).elim f (fun r => some (keys r)) := by
  intro l
  induction l with
  | nil => intro f acc; simp
  | cons r l ih =>
    intro f acc
    rw [List.foldl_cons]
    show (l.foldl oboeStep (some (keys r), acc ++ [r])).1 =
      ((r :: l).getLast?).elim f (fun x => some (keys x))
    rw [ih]
    cases l with
    | nil => simp
    | cons b t =>
      obtain ⟨x, hx⟩ := getLast?_cons_isSome b t
      simp [List.getLast?_cons_cons, hx]

lemma csvPipe_length (f0 : Option (List String)) (rs : List Record) :
    (csvPipe f0 rs).2.length = min 10 rs.length := by
  have := csvFold_length rs f0 [] (by simp)
  simpa [csvPipe] using this

lemma oboePipe_results (f0 : Option (List String)) (rs : List Record) :
    (oboePipe f0 rs).2 = rs.take 10 := by
  have := oboeFold_results (rs.take 10) f0 []
  simpa [oboePipe] using this

lemma oboePipe_length (f0 : Option (List String)) (rs : List Record) :
    (oboePipe f0 rs).2.length = min 10 rs.length := by
  rw [oboePipe_results, List.length_take]

lemma dinv_haltWith (st : DState) (r : Response) (h : DInv st) :
    DInv (haltWith st r) := by
  refine ⟨h.1, ?_⟩
  intro hh
  simp [haltWith] at hh

lemma dinv_crashWith (st : DState) (reason : String) (h : DInv st) :
    DInv (crashWith st reason) := by
  refine ⟨h.1, ?_⟩
  intro hh
  simp [crashWith] at hh

lemma dinv_preconditionsCheckD (env : DownloadEnv) (st : DState) (h : DInv st) :
    DInv (preconditionsCheckD env st) := by
  unfold preconditionsCheckD
  split
  · exact h
  · split
    · exact dinv_haltWith _ _ h
    · dsimp only
      split
      · exact ⟨h.1, h.2⟩
      · exact dinv_haltWith _ _ h

lemma dinv_getMetaDataD (env : DownloadEnv) (key : String) (st : DState)
    (h : DInv st) : DInv (getMetaDataD env key st) := by
  unfold getMetaDataD
  split
  · exact h
  · split
    · exact dinv_haltWith _ _ h
    · exact dinv_haltWith _ _ h
    · exact dinv_crashWith _ _ h
    · exact ⟨h.1, h.2⟩

lemma dinv_getDataD (env : DownloadEnv) (key : String) (st : DState)
    (h : DInv st) : DInv (getDataD env key st) := by
  unfold getDataD
  split
  · exact h
  · split
    · exact dinv_haltWith _ _ h
    · split
      · exact dinv_haltWith _ _ h
      · exact dinv_haltWith _ _ h
      · split
        · refine ⟨by simp [h.1], ?_⟩
          intro _ hh
          simp at hh
        · refine ⟨by simp [h.1], ?_⟩
          intro _ hh
          simp at hh

lemma dinv_cleanupTempD (st : DState) (h : DInv st) :
    (cleanupTempD st).tempLive = (cleanupTempD st).tempCreated := by
  unfold cleanupTempD
  split
  · exact h.1
  · split
    · rename_i hhalt hsent
      simp only [Bool.not_eq_true', ← Bool.not_eq_true] at hhalt hsent
      have : st.tempCreated = 0 := by
        apply h.2
        · cases hb : st.halted
          · rfl
          · exact absurd hb hhalt
        · simpa using hsent
      simp [this]
    · exact h.1

lemma downloadRequest_temp_eq (env : DownloadEnv) (key : String) :
    (downloadRequest env key).tempLive = (downloadRequest env key).tempCreated := by
  unfold downloadRequest
  apply dinv_cleanupTempD
  apply dinv_getDataD
  apply dinv_getMetaDataD
  apply dinv_preconditionsCheckD
  exact ⟨rfl, fun _ _ => rfl⟩

lemma zipRun_decoded_aux :
    ∀ (entries : List (String × List Record)) (acc : Query × List String),
      (entries.foldl zipEntryStep acc).2 =
        acc.2 ++ (entries.filter fun e =>
          endsWithL e.1 ".csv" || endsWithL e.1 ".geojson").map Prod.fst := by
  intro entries
  induction entries with
  | nil => intro acc; simp
  | cons e t ih =>
    intro acc
    rw [List.foldl_cons, ih]
    by_cases h1 : endsWithL e.1 ".csv" = true
    · have h2 : (zipEntryStep acc e).2 = acc.2 ++ [e.1] := by
        simp [zipEntryStep, h1]
      rw [h2]
      simp [List.filter_cons, h1, List.append_assoc]
    · by_cases h2 : endsWithL e.1 ".geojson" = true
      · have h3 : (zipEntryStep acc e).2 = acc.2 ++ [e.1] := by
          simp [zipEntryStep, h1, h2]
        rw [h3]
        simp [List.filter_cons, h1, h2, List.append_assoc]
      · have h3 : (zipEntryStep acc e).2 = acc.2 := by
          simp [zipEntryStep, h1, h2]
        rw [h3]
        simp [List.filter_cons, h1, h2]

lemma getDataScan_absorb :
    ∀ (l : List String) (x : String), l.foldl getDataStep (some x) = some x := by
  intro l
  induction l with
  | nil => intro x; rfl
  | cons n t ih =>
    intro x
    rw [List.foldl_cons]
    have : getDataStep (some x) n = some x := by simp [getDataStep]
    rw [this]
    exact ih x

lemma getDataScan_eq_find (l : List String) :
    getDataScan l = l.find? fun n => endsWithL n ".csv" := by
  unfold getDataScan
  induction l with
  | nil => rfl
  | cons n t ih =>
    rw [List.foldl_cons]
    by_cases h : endsWithL n ".csv" = true
    · have : getDataStep none n = some n := by simp [getDataStep, h]
      rw [this, getDataScan_absorb]
      simp [List.find?, h]
    · have : getDataStep none n = none := by simp [getDataStep, h]
      rw [this, ih]
      simp [List.find?, h]

lemma omit_pred_eq (kv : String × String) :
    (!(kv.1 == "LON") && !(kv.1 == "LAT")) =
      decide (kv.1 ∉ (["LON", "LAT"] : List String)) := by
  by_cases h1 : kv.1 = "LON" <;> by_cases h2 : kv.1 = "LAT" <;> simp [h1, h2]

lemma route_csv_fields (q : Query) (h : dispatchRoute q = Route.csv) :
    q.protocol = some "http" ∧ q.type = some "csv" ∧ q.compression = none := by
  unfold dispatchRoute at h
  split_ifs at h with h1 h2 h3 h4
  simp [typecheckQ] at h3
  exact ⟨h3.1.1, h3.1.2, h3.2⟩

lemma route_geojson_fields (q : Query) (h : dispatchRoute q = Route.geojson) :
    q.protocol = some "http" ∧ q.type = some "geojson" ∧ q.compression = none := by
  unfold dispatchRoute at h
  split_ifs at h with h1 h2 h3 h4
  simp [typecheckQ] at h2
  exact ⟨h2.1.1, h2.1.2, h2.2⟩

lemma scanMeta_first_match :
    ∀ (key : String) (pre : List MetaRecord) (r : MetaRecord)
      (post : List MetaRecord),
      (∀ x ∈ pre, x.source ≠ key) → r.source = key →
      scanMeta key (pre ++ r :: post) = (some r.processed, pre.length + 1) := by
  intro key pre r post
  induction pre with
  | nil =>
    intro _ hr
    simp [scanMeta, hr]
  | cons p t ih =>
    intro hpre hr
    have hp : p.source ≠ key := hpre p (List.mem_cons_self p t)
    have ih' := ih (fun x hx => hpre x (List.mem_cons_of_mem p hx)) hr
    simp [scanMeta, hp, ih']

lemma scanMeta_no_match :
    ∀ (key : String) (feed : List MetaRecord),
      (∀ x ∈ feed, x.source ≠ key) →
      scanMeta key feed = (none, feed.length) := by
  intro key feed
  induction feed with
  | nil => intro _; rfl
  | cons p t ih =>
    intro hall
    have hp : p.source ≠ key := hall p (List.mem_cons_self p t)
    have ih' := ih (fun x hx => hall x (List.mem_cons_of_mem p hx))
    simp [scanMeta, hp, ih']

/-! ## Claim theorems -/

/-- C1 counterexample: on the specification's own example archive
`[readme.txt, data.csv, extra.geojson]`, the sample endpoint's zip scanner
routes two matching entries into decoders — not at most one — and the final
sample holds the records of `extra.geojson`, so the pipeline does see the
later matching entry. -/
theorem c1_counterexample :
    (sampleZipRun (determineTypeQ (mkQuery "http://ex.com/a.zip"))
      firstMatchEntries).2 = ["data.csv", "extra.geojson"] ∧
    ¬ (sampleZipRun (determineTypeQ (mkQuery "http://ex.com/a.zip"))
      firstMatchEntries).2.length ≤ 1 ∧
    (sampleZipRun (determineTypeQ (mkQuery "http://ex.com/a.zip"))
      firstMatchEntries).1.results = some [[("b", "2")]] :=
  ⟨by decide, by decide, by decide⟩

/-- C1 (amended): only the download endpoint's zip scanner has the
first-match property — it routes exactly the first `.csv` entry (in stored
enumeration order) to output and skips every other entry, duplicates
included. The sample endpoint's zip scanner instead routes every entry
whose name ends in `.csv` or `.geojson` into a decoder, in order, draining
only the non-matching entries, so a later matching entry overwrites the
sample. -/
theorem c1_amended :
    (∀ entryNames : List String,
      getDataScan entryNames = entryNames.find? fun n => endsWithL n ".csv") ∧
    (∀ (q : Query) (entries : List (String × List Record)),
      (sampleZipRun q entries).2 =
        (entries.filter fun e =>
          endsWithL e.1 ".csv" || endsWithL e.1 ".geojson").map Prod.fst) := by
  refine ⟨getDataScan_eq_find, ?_⟩
  intro q entries
  unfold sampleZipRun
  rw [zipRun_decoded_aux]
  simp

/-- C2: for every source that classifies as a direct (non-zip, non-ArcGIS)
csv or geojson source, the sample endpoint answers 200 with a results array
of length exactly min(10, totalRecords); a stream ending naturally below
the cap is not an error, the partial sample is returned. -/
theorem c2_sample_length (s : String) (u : Upstream)
    (h : dispatchRoute (determineTypeQ (mkQuery s)) = Route.csv ∨
         dispatchRoute (determineTypeQ (mkQuery s)) = Route.geojson) :
    (runFields (mkQuery s) u).isOk200 = true ∧
    (runFields (mkQuery s) u).resultsLength = some (min 10 u.records.length) := by
  rcases h with h | h
  · obtain ⟨hp, ht, hc⟩ := route_csv_fields _ h
    simp only [runFields]
    rw [show (mkQuery s).source = some s from rfl]
    dsimp only
    rw [hp, if_neg (by simp), h]
    simp only [outputMw, Response.isOk200, Response.resultsLength, Option.map]
    exact ⟨trivial, by rw [csvPipe_length]⟩
  · obtain ⟨hp, ht, hc⟩ := route_geojson_fields _ h
    simp only [runFields]
    rw [show (mkQuery s).source = some s from rfl]
    dsimp only
    rw [hp, if_neg (by simp), h]
    simp only [outputMw, Response.isOk200, Response.resultsLength, Option.map]
    exact ⟨trivial, by rw [oboePipe_length]⟩

/-- C2 witness: a csv source with three records is answered 200 with all
three records. -/
theorem c2_witness :
    ((runFields (mkQuery "http://upstream.example/data.csv") demoUpstream).isOk200 = true ∧
     (runFields (mkQuery "http://upstream.example/data.csv") demoUpstream).resultsLength =
       some (min 10 demoUpstream.records.length)) ∧
    min 10 demoUpstream.records.length = 3 :=
  ⟨c2_sample_length "http://upstream.example/data.csv" demoUpstream (Or.inl (by decide)),
   by decide⟩

/-- C3: classification is a pure function of the locator string applying
the ordered first-match rules: an ArcGIS pattern match (the decomposition
`... (Map|Feature)Server/<digits>(/)?` at end of string) maps to the ESRI
protocol with geojson type; otherwise a `.geojson` suffix maps to
http/geojson; otherwise a `.csv` suffix to http/csv; otherwise a `.zip`
suffix to http with zip compression and no type; otherwise the request is
rejected 400 Unsupported type. -/
theorem c3_classifier (s : String) :
    (ArcgisMatch s →
      determineTypeQ (mkQuery s) =
        { mkQuery s with protocol := some "ESRI", type := some "geojson" }) ∧
    (¬ ArcgisMatch s → endsWithL s ".geojson" = true →
      determineTypeQ (mkQuery s) =
        { mkQuery s with protocol := some "http", type := some "geojson" }) ∧
    (¬ ArcgisMatch s → endsWithL s ".geojson" = false → endsWithL s ".csv" = true →
      determineTypeQ (mkQuery s) =
        { mkQuery s with protocol := some "http", type := some "csv" }) ∧
    (¬ ArcgisMatch s → endsWithL s ".geojson" = false → endsWithL s ".csv" = false →
      endsWithL s ".zip" = true →
      determineTypeQ (mkQuery s) =
        { mkQuery s with protocol := some "http", compression := some "zip" }) ∧
    (¬ ArcgisMatch s → endsWithL s ".geojson" = false → endsWithL s ".csv" = false →
      endsWithL s ".zip" = false →
      ∀ u : Upstream, runFields (mkQuery s) u =
        Response.err 400 "Unsupported type") := by
  have hiff := arcgisTest_iff s
  refine ⟨?_, ?_, ?_, ?_, ?_⟩
  · intro hm
    have ht : arcgisTest s = true := hiff.mpr hm
    simp [determineTypeQ, mkQuery, ht]
  · intro hnm hg
    have hf : arcgisTest s = false := by
      cases hb : arcgisTest s
      · rfl
      · exact absurd (hiff.mp hb) hnm
    simp [determineTypeQ, mkQuery, hf, hg]
  · intro hnm hg hc
    have hf : arcgisTest s = false := by
      cases hb : arcgisTest s
      · rfl
      · exact absurd (hiff.mp hb) hnm
    simp [determineTypeQ, mkQuery, hf, hg, hc]
  · intro hnm hg hc hz
    have hf : arcgisTest s = false := by
      cases hb : arcgisTest s
      · rfl
      · exact absurd (hiff.mp hb) hnm
    simp [determineTypeQ, mkQuery, hf, hg, hc, hz]
  · intro hnm hg hc hz u
    have hf : arcgisTest s = false := by
      cases hb : arcgisTest s
      · rfl
      · exact absurd (hiff.mp hb) hnm
    simp [runFields, determineTypeQ, mkQuery, hf, hg, hc, hz]

/-- C3 witness: a locator ending in `MapServer/3` classifies as ESRI with
geojson type, through an explicit decomposition of the ArcGIS pattern. -/
theorem c3_witness :
    determineTypeQ (mkQuery "https://gis.example.com/MapServer/3") =
      { mkQuery "https://gis.example.com/MapServer/3" with
        protocol := some "ESRI", type := some "geojson" } :=
  (c3_classifier "https://gis.example.com/MapServer/3").1
    ⟨"https://gis.example.com/".toList, ['3'], [], "Map".toList,
      Or.inl rfl, by decide, by decide, Or.inl rfl, by decide⟩

/-- C4: whenever a csv or geojson sample collects at least one record, the
reported field list is exactly the key list of the last record appended to
the sample (so not the union of keys across sampled records). -/
theorem c4_fields_last (f0 : Option (List String)) (rs : List Record)
    (h : rs ≠ []) :
    (csvPipe f0 rs).2 ≠ [] ∧
    (csvPipe f0 rs).1 = Option.map keys (csvPipe f0 rs).2.getLast? ∧
    (oboePipe f0 rs).2 ≠ [] ∧
    (oboePipe f0 rs).1 = Option.map keys (oboePipe f0 rs).2.getLast? := by
  have hpos : 0 < rs.length := List.length_pos.mpr h
  have hcsvlen : (csvPipe f0 rs).2.length = min 10 rs.length := csvPipe_length f0 rs
  have hcsvne : (csvPipe f0 rs).2 ≠ [] := by
    apply List.length_pos.mp
    rw [hcsvlen]
    omega
  have hoblen := oboePipe_length f0 rs
  have hobne : (oboePipe f0 rs).2 ≠ [] := by
    apply List.length_pos.mp
    rw [hoblen]
    omega
  refine ⟨hcsvne, ?_, hobne, ?_⟩
  · have hf := csvFold_fields rs f0 [] f0 (by simp)
    have hcsvne' : (rs.foldl sampleStep (f0, [])).2 ≠ [] := hcsvne
    unfold csvPipe
    rw [hf]
    rcases hcase : (rs.foldl sampleStep (f0, [])).2 with _ | ⟨b, t⟩
    · exact absurd hcase hcsvne'
    · obtain ⟨x, hx⟩ := getLast?_cons_isSome b t
      rw [hx]
      simp
  · have hf := oboeFold_fields (rs.take 10) f0 []
    have hres : (List.foldl oboeStep (f0, []) (rs.take 10)).2 = rs.take 10 := by
      simpa using oboeFold_results (rs.take 10) f0 []
    have hobne' : rs.take 10 ≠ [] := by
      have := hobne
      unfold oboePipe at this
      rw [hres] at this
      exact this
    unfold oboePipe
    rw [hf, hres]
    rcases hcase : rs.take 10 with _ | ⟨b, t⟩
    · exact absurd hcase hobne'
    · obtain ⟨x, hx⟩ := getLast?_cons_isSome b t
      rw [hx]
      simp

/-- C4 witness: on two records with field sets {a} then {b}, both pipes
report the last record's fields, ["b"], which differs from the union. -/
theorem c4_witness :
    ((csvPipe none twoRecords).2 ≠ [] ∧
     (csvPipe none twoRecords).1 = Option.map keys (csvPipe none twoRecords).2.getLast? ∧
     (oboePipe none twoRecords).2 ≠ [] ∧
     (oboePipe none twoRecords).1 = Option.map keys (oboePipe none twoRecords).2.getLast?) ∧
    (csvPipe none twoRecords).1 = some ["b"] ∧
    some ["b"] ≠ some ["a", "b"] :=
  ⟨c4_fields_last none twoRecords (by decide), by decide, by decide⟩

/-- C5: on the fully successful download path a temporary file is created
and is still on disk when the response completes — `cleanupTemp` runs only
when no headers were sent, and every temp-creating path sends headers
first. In general, cleanup never removes a file in any run: the files
remaining always equal the files created. -/
theorem c5_temp_cleanup :
    (downloadRequest happyEnv "dataset1").response = some (Response.okFile "data.csv") ∧
    (downloadRequest happyEnv "dataset1").tempCreated = 1 ∧
    (downloadRequest happyEnv "dataset1").tempLive = 1 ∧
    (∀ (env : DownloadEnv) (key : String),
      (downloadRequest env key).tempLive = (downloadRequest env key).tempCreated) :=
  ⟨by decide, by decide, by decide, downloadRequest_temp_eq⟩

/-- C6: the dataset resolver yields the `processed` field of the first feed
record whose `source` equals the key, stopping at that record (later
duplicates are never consumed); and when the whole feed has no match the
download endpoint answers 400 with the not-found message. -/
theorem c6_dataset_resolver :
    (∀ (key : String) (pre : List MetaRecord) (r : MetaRecord)
       (post : List MetaRecord),
      (∀ x ∈ pre, x.source ≠ key) → r.source = key →
      scanMeta key (pre ++ r :: post) = (some r.processed, pre.length + 1)) ∧
    (∀ (key : String) (feed : List MetaRecord),
      (∀ x ∈ feed, x.source ≠ key) →
      scanMeta key feed = (none, feed.length)) ∧
    (∀ (env : DownloadEnv) (key : String) (u : String) (feed : List MetaRecord),
      env.metadataUrl = some u →
      (env.format.getD "csv" = "csv" ∨ env.format.getD "csv" = "geojson") →
      env.metaFeed = Fetch.ok feed →
      (∀ x ∈ feed, x.source ≠ key) →
      (downloadRequest env key).response =
        some (Response.err 400 ("Unable to find " ++ key ++ " in " ++ u))) := by
  refine ⟨scanMeta_first_match, scanMeta_no_match, ?_⟩
  intro env key u feed hmu hfmt hfeed hall
  have hscan : (scanMeta key feed).1 = none := by
    rw [scanMeta_no_match key feed hall]
  have h1 : preconditionsCheckD env initState =
      { initState with format := env.format.getD "csv" } := by
    unfold preconditionsCheckD
    rw [hmu]
    simp [initState, hfmt]
  have h2 : getMetaDataD env key (preconditionsCheckD env initState) =
      { initState with format := env.format.getD "csv", datafile := none } := by
    rw [h1]
    unfold getMetaDataD
    rw [hfeed]
    simp [initState, hscan]
  have h3 : getDataD env key
      { initState with format := env.format.getD "csv", datafile := none } =
      haltWith { initState with format := env.format.getD "csv", datafile := none }
        (Response.err 400 ("Unable to find " ++ key ++ " in " ++ u)) := by
    unfold getDataD
    rw [hmu]
    simp [initState]
  unfold downloadRequest
  rw [h2, h3]
  simp [cleanupTempD, haltWith]

/-- C6 witness: with the feed `[other, (ds1,u1), (ds1,u2)]` the resolver
yields `u1` after consuming two records, the duplicate untouched; and a
feed without the key makes the download endpoint answer 400 not-found. -/
theorem c6_witness :
    scanMeta "ds1"
      ([{ source := "other", processed := "p0" }] ++
        ({ source := "ds1", processed := "u1" } : MetaRecord) ::
        [{ source := "ds1", processed := "u2" }]) = (some "u1", 2) ∧
    (downloadRequest notFoundEnv "ds1").response =
      some (Response.err 400
        ("Unable to find " ++ "ds1" ++ " in " ++ "http://metadata.example/feed")) :=
  ⟨c6_dataset_resolver.1 "ds1" [{ source := "other", processed := "p0" }]
      { source := "ds1", processed := "u1" } [{ source := "ds1", processed := "u2" }]
      (by decide) rfl,
   c6_dataset_resolver.2.2 notFoundEnv "ds1" "http://metadata.example/feed"
      [{ source := "other", processed := "p0" }] rfl (by decide) rfl (by decide)⟩

/-- C7: the conversion sink maps the csv input `LON,LAT,NAME` /
`-122.1,37.5,Foo` to exactly one Point feature at coordinates
[-122.1, 37.5] with properties {NAME: Foo}; in general records map 1:1 and
in order to Point features whose properties are the record minus the LON
and LAT fields. -/
theorem c7_conversion_sink :
    convertCsvInput "LON,LAT,NAME\n-122.1,37.5,Foo\n" =
      [{ geomType := "Point", lon := JsNum.num ((-1221 : ℚ)/10),
         lat := JsNum.num ((75 : ℚ)/2), properties := [("NAME", "Foo")] }] ∧
    (∀ records : List Record, (convertRecords records).length = records.length) ∧
    (∀ (records : List Record) (i : Nat),
      (convertRecords records)[i]? = records[i]?.map toPoint) ∧
    (∀ r : Record, (toPoint r).properties =
      r.filter fun kv => decide (kv.1 ∉ (["LON", "LAT"] : List String))) := by
  refine ⟨?_, ?_, ?_, ?_⟩
  · have h1 : convertCsvInput "LON,LAT,NAME\n-122.1,37.5,Foo\n" =
        [{ geomType := "Point", lon := JsNum.num (mkRat (-1221) 10),
           lat := JsNum.num (mkRat 75 2), properties := [("NAME", "Foo")] }] := by
      decide
    have h2 : (mkRat (-1221) 10 : ℚ) = (-1221 : ℚ)/10 := by
      rw [Rat.mkRat_eq_div]
      norm_num
    have h3 : (mkRat 75 2 : ℚ) = (75 : ℚ)/2 := by
      rw [Rat.mkRat_eq_div]
      norm_num
    rw [h1, h2, h3]
  · intro records
    simp [convertRecords]
  · intro records i
    simp [convertRecords, List.getElem?_map]
  · intro r
    unfold toPoint
    simp only [omit_pred_eq]

/-- C8 counterexample: a mid-stream csv decode failure is not reported as
any error response at all — the parse stream has no error listener, so the
error event is uncaught and the caller receives nothing, contradicting the
claim that every sampler reports a distinct decode error embedding the
locator. -/
theorem c8_counterexample :
    ¬ ∃ (status : Nat) (msg : String),
        sampleCsvModel (determineTypeQ (mkQuery "http://upstream.example/data.csv"))
          (CsvOutcome.decodeErrMidStream [] "Invalid Record Length") =
          Response.err status msg := by
  rintro ⟨st, msg, h⟩
  simp [sampleCsvModel] at h

/-- C8 (amended): the csv sampler reports transport failures and HTTP
error responses as 400s embedding the locator but leaves mid-stream decode
failures unhandled; the geojson sampler funnels transport and decode
failures through one handler and one message template embedding the
locator, the two responses coinciding when the failure carries no body and
no status; the ArcGIS sampler throws on a transport failure instead of
reporting it. -/
theorem c8_amended :
    (∀ (q : Query) (code : String),
      sampleCsvModel q (CsvOutcome.transportErr code) =
        Response.err 400
          ("Error retrieving file " ++ q.source.getD "" ++ ": " ++ code)) ∧
    (∀ (q : Query) (status : Nat) (body : String),
      sampleCsvModel q (CsvOutcome.httpErr status body) =
        Response.err 400
          ("Error retrieving file " ++ q.source.getD "" ++ ": " ++ body ++
            " (" ++ toString status ++ ")")) ∧
    (∀ (q : Query) (pre : List Record) (e : String),
      sampleCsvModel q (CsvOutcome.decodeErrMidStream pre e) =
        Response.unhandled e) ∧
    (∀ (q : Query) (pre : List Record),
      sampleGeojsonModel q GeojsonOutcome.transportErr =
        sampleGeojsonModel q (GeojsonOutcome.decodeErrMidStream pre none none)) ∧
    (∀ (q : Query) (pre : List Record) (body : Option String) (status : Option Nat),
      sampleGeojsonModel q (GeojsonOutcome.decodeErrMidStream pre body status) =
        Response.err 400 (oboeFailMsg (q.source.getD "") body status)) ∧
    (∀ (q : Query) (code : String),
      sampleArcgisModel q (ArcgisOutcome.transportErr code) =
        Response.unhandled "TypeError: reading statusCode of undefined response") :=
  ⟨fun _ _ => rfl, fun _ _ _ => rfl, fun _ _ _ => rfl, fun _ _ => rfl,
   fun _ _ _ _ => rfl, fun _ _ => rfl⟩

/-- C9: a record whose LON or LAT field does not parse as a number is
still converted and emitted — the conversion is total, keeps one point per
record in order, and carries each unparseable coordinate through as NaN in
the emitted Point feature. -/
theorem c9_nan_passthrough (r : Record) :
    (∀ v : String, getField r "LON" = some v → parseFloatM v = JsNum.nan →
      (toPoint r).lon = JsNum.nan) ∧
    (∀ w : String, getField r "LAT" = some w → parseFloatM w = JsNum.nan →
      (toPoint r).lat = JsNum.nan) ∧
    (∀ records : List Record, (convertRecords records).length = records.length) ∧
    (∀ (records : List Record) (i : Nat),
      (convertRecords records)[i]? = records[i]?.map toPoint) := by
  refine ⟨?_, ?_, ?_, ?_⟩
  · intro v hl hn
    simp [toPoint, parseCoord, hl, hn]
  · intro w hl hn
    simp [toPoint, parseCoord, hl, hn]
  · intro records
    simp [convertRecords]
  · intro records i
    simp [convertRecords, List.getElem?_map]

/-- C9 witness: the record with LON = "abc" and LAT = "xyz" converts to a
point with NaN longitude and NaN latitude. -/
theorem c9_witness :
    (toPoint badRecord).lon = JsNum.nan ∧ (toPoint badRecord).lat = JsNum.nan :=
  ⟨(c9_nan_passthrough badRecord).1 "abc" (by decide) (by decide),
   (c9_nan_passthrough badRecord).2.1 "xyz" (by decide) (by decide)⟩

/-- C10: dispatch is not a function of the source alone — a caller can add
a query parameter in the namespace the classifier writes into so that a
classifiable source matches no sampler route and the endpoint answers 200
with `source_data.fields` and `source_data.results` both absent: a `.csv`
source with `compression=zip`, and a `.zip` source with `type=csv`. -/
theorem c10_parameter_pollution :
    ((determineTypeQ polluted1).protocol = some "http" ∧
     dispatchRoute (determineTypeQ polluted1) = Route.fallthrough ∧
     ∀ u : Upstream, runFields polluted1 u =
       Response.ok { type := some "http", compression := some "zip",
                     data := some "http://upstream.example/data.csv",
                     fields := none, results := none, conformType := some "csv" }) ∧
    ((determineTypeQ polluted2).protocol = some "http" ∧
     dispatchRoute (determineTypeQ polluted2) = Route.fallthrough ∧
     ∀ u : Upstream, runFields polluted2 u =
       Response.ok { type := some "http", compression := some "zip",
                     data := some "http://upstream.example/archive.zip",
                     fields := none, results := none, conformType := some "csv" }) := by
  refine ⟨⟨by decide, by decide, ?_⟩, ⟨by decide, by decide, ?_⟩⟩
  · intro u
    rfl
  · intro u
    rfl
